import Mathlib

/-!
# Verification of the MKV bulk track manager core

Shallow embedding of the track-metadata cache and bulk-flag-reconciliation
engine of the repository (files `mediainfo.py` and `mkvdefaults.py`), with
theorems settling the frozen claims about it.

Modelling conventions:
* Python dict values occurring in track records are embedded as `JVal`
  (a small JSON-like value type); a track record (the dict literal built by
  `gather_tracks`) is an association list `List (String × JVal)` so that key
  presence/absence is represented faithfully.
* `track.get(key, default)` is `dictGet`; Python `==` between such values is
  `pyEq` (`True == 1` holds in Python, so booleans and numbers compare
  numerically; values of different non-numeric kinds are unequal).
* Machine effects (mkvpropedit invocations, cache updates) are collected in
  an `Effects` record rather than performed.
* The filesystem holding the per-show JSON cache is a partial map from path
  to `CacheFile`.
-/

namespace MkvBulk

/-- JSON-like values stored in a track record dict. -/
inductive JVal where
  | jnull : JVal
  | jbool : Bool → JVal
  | jnat : Nat → JVal
  | jstr : String → JVal
deriving DecidableEq, Repr

open JVal

/-- Python `==` on the values we store: `True == 1` and `False == 0` hold in
Python, so booleans compare with numbers numerically; otherwise values of
different kinds are unequal. -/
def pyEq : JVal → JVal → Bool
  | jnull, jnull => true
  | jbool a, jbool b => a == b
  | jnat a, jnat b => a == b
  | jstr a, jstr b => a == b
  | jbool a, jnat n => (if a then 1 else 0) == n
  | jnat n, jbool a => n == (if a then 1 else 0)
  | _, _ => false

/-- A Python dict with string keys, insertion ordered. -/
abbrev PyDict := List (String × JVal)

/-- `d.get(k, default)`. -/
def dictGet (d : PyDict) (k : String) (dflt : JVal) : JVal :=
  match d.find? (fun p => p.1 = k) with
  | some p => p.2
  | none => dflt

/-- Python `str.lower()` (ASCII case, which covers all inputs here). -/
def pyLower (s : String) : String :=
  String.mk (s.toList.map Char.toLower)

/-- Python `str.strip()`: drop leading and trailing whitespace. -/
def pyStrip (s : String) : String :=
  String.mk (((s.toList.dropWhile Char.isWhitespace).reverse.dropWhile Char.isWhitespace).reverse)

/-- `.lower().strip()` as used throughout the source for identity
normalization. -/
def normStr (s : String) : String := pyStrip (pyLower s)

/-- Python `(v or '')` applied to a string-or-None value, followed by use as
a string: `None` and the empty string are falsy and give `''`. -/
def pyOrEmptyStr : JVal → String
  | jstr s => s
  | _ => ""

/-- Reading a value that the record stores as a string (`language`,
`track_type`, ... always hold strings in every record `gather_tracks`
builds). -/
def jvalAsString : JVal → String
  | jstr s => s
  | _ => ""

/-- Text used when a track id is spliced into the mkvpropedit command
(`track:@{track_id}`). -/
def jvalText : JVal → String
  | jstr s => s
  | jnat n => toString n
  | jbool b => if b then "True" else "False"
  | jnull => "None"

/-- One track as reported by the external probe (pymediainfo), before
`gather_tracks` normalizes it into a record.  `Option` models an attribute
that is missing / `None`, matching the `getattr(track, attr, default)`
reads in the source. -/
structure MITrack where
  track_type : String
  track_id : Option Nat := none
  duration : JVal := jnull
  file_size : JVal := jnull
  overall_bit_rate : JVal := jnull
  width : JVal := jnull
  height : JVal := jnull
  frame_rate : JVal := jnull
  codec : JVal := jnull
  channel_s : JVal := jnull
  sampling_rate : JVal := jnull
  bit_rate : JVal := jnull
  language : Option String := none
  track_name : Option String := none
  title : Option String := none
  forced : Option String := none
deriving DecidableEq, Repr

/-- The dict literal `track_data` built in `mediainfo.gather_tracks` for one
track; `tt` is `track.track_type.lower()`, computed by the caller exactly as
in the source. -/
def track_data (tt : String) (t : MITrack) : PyDict :=
  [("track_id", match t.track_id with | some n => jnat n | none => jnull),
   ("track_type", jstr tt),
   ("duration", t.duration),
   ("file_size", t.file_size),
   ("overall_bit_rate", t.overall_bit_rate),
   ("width", t.width),
   ("height", t.height),
   ("frame_rate", t.frame_rate),
   ("codec", t.codec),
   ("channels", t.channel_s),
   ("sampling_rate", t.sampling_rate),
   ("bit_rate", t.bit_rate),
   ("language", jstr (t.language.getD "und")),
   ("track_name", jstr (t.track_name.getD "")),
   ("title", jstr (t.title.getD "")),
   ("forced", jstr (if (t.forced.getD "No") = "Yes" then "Yes" else "No"))]

/-- The four-way grouping `tracks_info` returned by `gather_tracks`. -/
structure MediaSnapshot where
  general : List PyDict := []
  video : List PyDict := []
  audio : List PyDict := []
  text : List PyDict := []
deriving DecidableEq, Repr

/-- `mediainfo.gather_tracks`: iterate the probe's tracks, skip `menu`
tracks, build `track_data` and append it to the list for its type. -/
def gather_tracks : List MITrack → MediaSnapshot
  | [] => {}
  | t :: ts =>
    let rest := gather_tracks ts
    let tt := pyLower t.track_type
    if tt = "menu" then rest
    else
      let td := track_data tt t
      if tt = "general" then { rest with general := td :: rest.general }
      else if tt = "video" then { rest with video := td :: rest.video }
      else if tt = "audio" then { rest with audio := td :: rest.audio }
      else if tt = "text" then { rest with text := td :: rest.text }
      else rest

/-- `tracks_info.get(key, [])` on the snapshot dict. -/
def snapshotGet (s : MediaSnapshot) (k : String) : List PyDict :=
  if k = "general" then s.general
  else if k = "video" then s.video
  else if k = "audio" then s.audio
  else if k = "text" then s.text
  else []

/-- `tracks_info.get(track_type if track_type != 'subtitle' else 'text', [])`. -/
def tracksForType (s : MediaSnapshot) (track_type : String) : List PyDict :=
  snapshotGet s (if track_type ≠ "subtitle" then track_type else "text")

/-- The `selected_track_info` dict `{'language': ..., 'title': ...}`. -/
structure SelInfo where
  language : String
  title : String
deriving DecidableEq, Repr

/-- One mkvpropedit mutation decided by the bulk loop: set `flag_name` to
`value` on the track identified by `track_id`. -/
structure Mutation where
  track_id : JVal
  flag_name : String
  value : Bool
deriving DecidableEq, Repr

/-- The body of the `for track in tracks` loop of
`mkvdefaults.bulk_modify_files` (lines 110-137): the mutation issued for
one track, if any.  `none` covers the `continue` paths: missing track id,
unrecognized flag name, and current flag already equal to the desired
flag. -/
def planTrack (selected_track_info : SelInfo) (flag_name : String) (track : PyDict) :
    Option Mutation :=
  let track_id := dictGet track "track_id" jnull
  if track_id = jnull then none
  else
    let is_selected_track :=
      normStr (jvalAsString (dictGet track "language" (jstr "und")))
          = normStr selected_track_info.language
        ∧ normStr (pyOrEmptyStr (dictGet track "title" jnull))
          = normStr selected_track_info.title
    let desired_flag : Option Bool :=
      if flag_name = "flag-forced" then some (decide is_selected_track)
      else if flag_name = "flag-default" then some (decide is_selected_track)
      else none
    match desired_flag with
    | none => none
    | some d =>
      let current_flag := dictGet track flag_name (jbool false)
      if pyEq current_flag (jbool d) then none
      else some ⟨track_id, flag_name, d⟩

/-- Per-file mutation plan of `bulk_modify_files`: the sequence of
`modify_mkv_track` invocations it issues for one file's snapshot. -/
def bulk_modify_files_plan (selected_track_info : SelInfo) (flag_name track_type : String)
    (tracks_info : MediaSnapshot) : List Mutation :=
  (tracksForType tracks_info track_type).filterMap (planTrack selected_track_info flag_name)

/-- Per-file mutations executed by `mkvdefaults.bulk_set_default_and_forced_flag`:
every call it makes into `bulk_modify_files` — the dry-run branch (line 621)
and all three execution branches (lines 636, 639, 647) — passes
`flag_name='flag-forced'`, so the combined operation runs exactly the
single-flag forced reconciliation. -/
def bulk_set_default_and_forced_plan (selected_track_info : SelInfo) (track_type : String)
    (tracks_info : MediaSnapshot) : List Mutation :=
  bulk_modify_files_plan selected_track_info "flag-forced" track_type tracks_info

/-- Modelled from the spec: the combined "default and forced" operation as the
spec describes it — "two independent single-flag plans concatenated ...
order: default first, then forced".  Stated for comparison with
`bulk_set_default_and_forced_plan`, the plan the code actually runs. -/
def combined_plan_spec (selected_track_info : SelInfo) (track_type : String)
    (tracks_info : MediaSnapshot) : List Mutation :=
  bulk_modify_files_plan selected_track_info "flag-default" track_type tracks_info
    ++ bulk_modify_files_plan selected_track_info "flag-forced" track_type tracks_info

/-! ## Effects of `modify_mkv_track` -/

/-- Split a character list on a separator (the pieces between separators,
like `str.split`). -/
def splitOnChar (sep : Char) : List Char → List (List Char)
  | [] => [[]]
  | c :: cs =>
    let r := splitOnChar sep cs
    if c = sep then [] :: r
    else
      match r with
      | [] => [[c]]
      | h :: t => (c :: h) :: t

/-- Interleave a separator between pieces (inverse of `splitOnChar`). -/
def joinWithChar (sep : Char) : List (List Char) → List Char
  | [] => []
  | [h] => h
  | h :: t => h ++ sep :: joinWithChar sep t

/-- `os.path.basename`: the part after the last `/`. -/
def pyBasename (p : String) : String :=
  String.mk ((splitOnChar '/' p.toList).getLastD [])

/-- `os.path.dirname`: everything before the last `/`. -/
def pyDirname (p : String) : String :=
  String.mk (joinWithChar '/' (splitOnChar '/' p.toList).dropLast)

/-- Observable effects of one `modify_mkv_track` call: the external
mkvpropedit commands actually run, the `update_media_info` calls made
(as (show_name, file_path) pairs), and the `[DRY RUN] Would execute:`
command strings reported. -/
structure Effects where
  externalCalls : List (List String) := []
  cacheUpdates : List (String × String) := []
  dryRunReports : List String := []
deriving DecidableEq, Repr

/-- The command list built in `modify_mkv_track` (lines 40-45), including the
`sudo -S` prefix when `use_sudo` is set. -/
def mkvpropeditCommand (file_path : String) (track_id : JVal) (flag_name : String)
    (flag_value : Bool) (use_sudo : Bool) : List String :=
  let flag_value_str := if flag_value then "1" else "0"
  let command := ["mkvpropedit", file_path, "--edit", "track:@" ++ jvalText track_id,
                  "--set", flag_name ++ "=" ++ flag_value_str]
  if use_sudo then "sudo" :: "-S" :: command else command

/-- `mkvdefaults.modify_mkv_track`, as the effects it performs.  A `None`
track id returns immediately (lines 36-38); a dry run logs the would-be
command and returns before any subprocess call (lines 47-49); otherwise the
command is run and, when neither dry-run nor sudo, `update_media_info` is
invoked at the end (lines 93-94).  The preliminary
`ensure_mkvpropedit_installed` check is a read-only environment probe and is
not an effect on media files or the cache, so it is not modelled. -/
def modify_mkv_track (file_path : String) (track_id : JVal) (flag_name : String)
    (flag_value : Bool) (dry_run : Bool) (use_sudo : Bool) : Effects :=
  if track_id = jnull then {}
  else
    let command := mkvpropeditCommand file_path track_id flag_name flag_value use_sudo
    if dry_run then { dryRunReports := [String.intercalate " " command] }
    else
      let eff : Effects := { externalCalls := [command] }
      if ¬ dry_run ∧ ¬ use_sudo then
        { eff with cacheUpdates := [(pyBasename (pyDirname file_path), file_path)] }
      else eff

/-! ## Environment semantics of applying a plan

`mkvpropedit file --edit track:@id --set flag-forced=v` sets the forced
flag of that track inside the container; a later probe of the file reports
the updated value through the track's `forced` attribute ("Yes"/"No").
The probe never reports the default flag (see `track_data`), so
`flag-default` mutations change nothing observable in a snapshot. -/

/-- Effect of one mutation on the underlying file's tracks. -/
def applyMutation (ts : List MITrack) (m : Mutation) : List MITrack :=
  ts.map (fun t =>
    if (match t.track_id with | some n => jnat n | none => jnull) = m.track_id then
      (if m.flag_name = "flag-forced" then
        { t with forced := some (if m.value then "Yes" else "No") }
      else t)
    else t)

/-- Applying a whole plan in order. -/
def applyPlan (ts : List MITrack) (p : List Mutation) : List MITrack :=
  p.foldl applyMutation ts

/-! ## Show cache store (`mediainfo.py` file operations) -/

/-- Contents of one file in the cache directory: either a JSON document that
parses (a show cache: season key ↦ (episode key ↦ serialized entry)), or
bytes that `json.load` rejects. -/
inductive CacheFile where
  | valid : List (String × List (String × String)) → CacheFile
  | corrupt : CacheFile
deriving DecidableEq, Repr

/-- A show cache document: season key ↦ association list of episode key ↦
serialized episode entry. -/
abbrev ShowData := List (String × List (String × String))

/-- The filesystem as a partial map from path to file contents. -/
abbrev FS := String → Option CacheFile

/-- Writing (creating or overwriting) one file, as `open(path, 'w')` and
`shutil.copyfile` both do. -/
def fsSet (fs : FS) (p : String) (c : CacheFile) : FS :=
  fun q => if q = p then some c else fs q

/-- `os.path.join(JSON_DIR, f"{show_name}.json")` with `JSON_DIR = "json"`. -/
def cachePath (show_name : String) : String :=
  "json/" ++ show_name ++ ".json"

/-- `mediainfo.load_json`: parse the show's file if it exists, else return
`{}`.  `json.load` on an unreadable/corrupt file raises — there is no
handler in the source, so the error propagates (`Except.error`). -/
def load_json (fs : FS) (show_name : String) : Except Unit ShowData :=
  match fs (cachePath show_name) with
  | none => Except.ok []
  | some (CacheFile.valid d) => Except.ok d
  | some CacheFile.corrupt => Except.error ()

/-- Value of the first run of digits in a character list, `0` when there is
none. -/
def firstNumAux : List Char → Nat
  | [] => 0
  | c :: cs =>
    if c.isDigit then
      ((c :: cs).takeWhile Char.isDigit).foldl (fun n d => n * 10 + (d.toNat - 48)) 0
    else firstNumAux cs

/-- First run of digits in a string read as a number:
`int(re.search(r'\d+', s).group())`, or `0` when the regex does not match. -/
def firstNum (s : String) : Nat :=
  firstNumAux s.toList

/-- Stable insertion into a list sorted by `firstNum` of the key: the new
element goes after every element whose key is ≤ its own, which is how
Python's stable `sorted` orders ties. -/
def sortedInsertByNum (x : String × List (String × String)) :
    ShowData → ShowData
  | [] => [x]
  | y :: ys =>
    if firstNum y.1 ≤ firstNum x.1 then y :: sortedInsertByNum x ys
    else x :: y :: ys

/-- `sorted(data.keys(), key=lambda s: int(re.search(r'\d+', s).group()) if
re.search(r'\d+', s) else 0)` followed by rebuilding the dict in that order:
a stable sort of the top-level entries by the first number in the key. -/
def pySortedByNum (l : ShowData) : ShowData :=
  l.foldl (fun acc x => sortedInsertByNum x acc) []

/-- `mediainfo.save_json`: full overwrite of the show's cache file with the
document whose top-level entries are sorted by `firstNum` of the key.
(The `os.makedirs(JSON_DIR)` step has no counterpart in the path map.) -/
def save_json (fs : FS) (show_name : String) (data : ShowData) : FS :=
  fsSet fs (cachePath show_name) (CacheFile.valid (pySortedByNum data))

/-- `mediainfo.create_backup_json`: if the live cache file exists, copy it to
`json/{show_name}_backup_{timestamp}.json`; otherwise log a warning and do
nothing. -/
def create_backup_json (fs : FS) (show_name : String) (timestamp : String) : FS :=
  let json_file_path := cachePath show_name
  match fs json_file_path with
  | none => fs
  | some content =>
    fsSet fs ("json/" ++ show_name ++ "_backup_" ++ timestamp ++ ".json") content

/-- `mediainfo.restore_backup_json`: if `json/{show_name}.backup.json`
exists, copy it over the live cache file; otherwise log an error and do
nothing. -/
def restore_backup_json (fs : FS) (show_name : String) : FS :=
  let json_file_path := cachePath show_name
  let backup_file_path := "json/" ++ show_name ++ ".backup.json"
  match fs backup_file_path with
  | none => fs
  | some content => fsSet fs json_file_path content

/-! ## Track identity grouping (`bulk_set_forced_flag`, lines 162-185) -/

/-- One value of the `unique_tracks` dict: the first-seen raw `language` and
`title` values plus the running count. -/
structure UEntry where
  language : JVal
  title : JVal
  count : Nat
deriving DecidableEq, Repr

/-- The normalized identity key built per track (lines 175-177):
`((track.get('language', 'und') or '').lower().strip(),
  (track.get('title') or '').lower().strip())`. -/
def uKey (track : PyDict) : String × String :=
  (normStr (pyOrEmptyStr (dictGet track "language" (jstr "und"))),
   normStr (pyOrEmptyStr (dictGet track "title" jnull)))

/-- The `unique_tracks` accumulator: an insertion-ordered dict keyed by the
normalized identity. -/
abbrev UTracks := List ((String × String) × UEntry)

/-- The body of the `for track in tracks` loop (lines 174-185): create a
fresh entry with count 1 for an unseen key, else increment its count. -/
def addTrackToUnique (m : UTracks) (track : PyDict) : UTracks :=
  let key := uKey track
  if m.any (fun e => e.1 = key) then
    m.map (fun e => if e.1 = key then (e.1, { e.2 with count := e.2.count + 1 }) else e)
  else
    m ++ [(key, { language := dictGet track "language" (jstr "und"),
                  title := dictGet track "title" (jstr ""),
                  count := 1 })]

/-- The whole collection phase of `bulk_set_forced_flag`: fold over every
file's tracks of the requested type (each inner list being what the cache or
a fresh probe reports for that file). -/
def collect_unique_tracks (files : List (List PyDict)) : UTracks :=
  files.foldl (fun m tracks => tracks.foldl addTrackToUnique m) []

/-- The count stored for an identity, 0 when the identity was never seen. -/
def uniqueCount (m : UTracks) (k : String × String) : Nat :=
  match m.find? (fun e => e.1 = k) with
  | some e => e.2.count
  | none => 0

/-- Modelled from the spec: "aggregate count of files containing a track
matching that identity" — the number of files with at least one matching
track of the requested type. -/
def filesContainingIdentity (files : List (List PyDict)) (k : String × String) : Nat :=
  files.countP (fun tracks => tracks.any (fun t => uKey t = k))

/-! ## Concrete inputs used by the scenario evaluations and witnesses -/

/-- All records of a snapshot, across the four type groups. -/
def allRecords (s : MediaSnapshot) : List PyDict :=
  s.general ++ s.video ++ s.audio ++ s.text

/-- The probe's report for the first audio track of the spec's scenario file
`Show.S01E02.mkv`: id 1, language "eng", empty title, not forced. -/
def engT : MITrack :=
  { track_type := "Audio", track_id := some 1, language := some "eng",
    title := some "", forced := some "No" }

/-- The second audio track of the scenario file: id 2, language "jpn",
empty title, forced. -/
def jpnT : MITrack :=
  { track_type := "Audio", track_id := some 2, language := some "jpn",
    title := some "", forced := some "Yes" }

/-- The scenario file's probed tracks. -/
def showS01E02 : List MITrack := [engT, jpnT]

/-- The selected logical-track identity (language "eng", empty title). -/
def selEng : SelInfo := { language := "eng", title := "" }

/-- A second audio track with the same (language, title) identity as `engT`
but a different id, for the grouping-count evaluation. -/
def engDup : MITrack :=
  { track_type := "Audio", track_id := some 3, language := some "eng",
    title := some "", forced := some "No" }

/-- A probed track whose `track_id` attribute is absent. -/
def noIdTrack : MITrack := { track_type := "Audio", language := some "eng" }

/-- A show cache whose "No Season" bucket holds two filename-keyed entries
whose first numbers are out of order, plus one regular season. -/
def cdata : ShowData :=
  [("No Season", [("2 Special.mkv", "x"), ("1 Pilot.mkv", "y")]),
   ("Season 1", [("s01e01", "e1")])]

/-- The pre-mutation contents of show A's cache file. -/
def d0 : ShowData := [("Season 1", [("s01e01", "v0")])]

/-- The mutated contents of show A's cache file. -/
def d1 : ShowData := [("Season 1", [("s01e01", "v1")])]

/-- A filesystem holding only show A's live cache file. -/
def fs0 : FS := fun p => if p = "json/A.json" then some (CacheFile.valid d0) else none

/-- A filesystem on which show A's cache file exists but does not parse. -/
def corruptFS : FS :=
  fun p => if p = "json/A.json" then some CacheFile.corrupt else none

/-! ## Helper lemmas: the stable sort used by `save_json` -/

theorem sortedInsertByNum_perm (x : String × List (String × String)) (l : ShowData) :
    (sortedInsertByNum x l).Perm (x :: l) := by
  induction l with
  | nil => simp [sortedInsertByNum]
  | cons y ys ih =>
    simp only [sortedInsertByNum]
    split
    · exact (ih.cons y).trans (List.Perm.swap x y ys)
    · exact List.Perm.refl _

theorem sortedInsertByNum_pairwise (x : String × List (String × String)) (l : ShowData)
    (h : List.Pairwise (fun a b => firstNum a.1 ≤ firstNum b.1) l) :
    List.Pairwise (fun a b => firstNum a.1 ≤ firstNum b.1) (sortedInsertByNum x l) := by
  induction l with
  | nil => simp [sortedInsertByNum]
  | cons y ys ih =>
    rcases List.pairwise_cons.mp h with ⟨hy, hys⟩
    simp only [sortedInsertByNum]
    split
    case isTrue hle =>
      refine List.Pairwise.cons ?_ (ih hys)
      intro z hz
      rcases List.mem_cons.mp ((sortedInsertByNum_perm x ys).mem_iff.mp hz) with rfl | hzys
      · exact hle
      · exact hy z hzys
    case isFalse hlt =>
      refine List.Pairwise.cons ?_ h
      intro z hz
      have hxy : firstNum x.1 ≤ firstNum y.1 := le_of_not_le hlt
      rcases List.mem_cons.mp hz with rfl | hzys
      · exact hxy
      · exact hxy.trans (hy z hzys)

theorem foldl_sortedInsert_pairwise (l : ShowData) (acc : ShowData)
    (h : List.Pairwise (fun a b => firstNum a.1 ≤ firstNum b.1) acc) :
    List.Pairwise (fun a b => firstNum a.1 ≤ firstNum b.1)
      (l.foldl (fun a x => sortedInsertByNum x a) acc) := by
  induction l generalizing acc with
  | nil => exact h
  | cons x xs ih => exact ih _ (sortedInsertByNum_pairwise x acc h)

theorem foldl_sortedInsert_perm (l : ShowData) (acc : ShowData) :
    (l.foldl (fun a x => sortedInsertByNum x a) acc).Perm (l ++ acc) := by
  induction l generalizing acc with
  | nil => simp
  | cons x xs ih =>
    simp only [List.foldl_cons, List.cons_append]
    have h1 := ih (sortedInsertByNum x acc)
    have h2 : (xs ++ sortedInsertByNum x acc).Perm (xs ++ (x :: acc)) :=
      List.Perm.append_left xs (sortedInsertByNum_perm x acc)
    have h3 : (xs ++ (x :: acc)).Perm (x :: (xs ++ acc)) := List.perm_middle
    exact h1.trans (h2.trans h3)

theorem pySortedByNum_pairwise (data : ShowData) :
    List.Pairwise (fun a b => firstNum a.1 ≤ firstNum b.1) (pySortedByNum data) :=
  foldl_sortedInsert_pairwise data [] List.Pairwise.nil

theorem pySortedByNum_perm (data : ShowData) : (pySortedByNum data).Perm data := by
  have h := foldl_sortedInsert_perm data []
  simpa [pySortedByNum] using h

/-! ## Helper lemmas: the `unique_tracks` accumulation -/

theorem uniqueCount_eq_zero_of_not_mem (m : UTracks) (k : String × String)
    (h : m.any (fun e => e.1 = k) = false) : uniqueCount m k = 0 := by
  induction m with
  | nil => rfl
  | cons e es ih =>
    simp only [List.any_cons, Bool.or_eq_false_iff, decide_eq_false_iff_not] at h
    have h1 : ¬ ((fun x : (String × String) × UEntry => decide (x.1 = k)) e = true) := by
      simpa using h.1
    show uniqueCount (e :: es) k = 0
    rw [uniqueCount, List.find?_cons_of_neg es h1]
    exact ih h.2

theorem uniqueCount_map_bump_ne (m : UTracks) (key k : String × String) (h : key ≠ k) :
    uniqueCount
        (m.map (fun e => if e.1 = key then (e.1, { e.2 with count := e.2.count + 1 }) else e)) k
      = uniqueCount m k := by
  induction m with
  | nil => rfl
  | cons e es ih =>
    by_cases he : e.1 = k
    · have hek : ¬ (e.1 = key) := fun hh => h (hh ▸ he ▸ rfl)
      simp only [List.map_cons, if_neg hek]
      rw [uniqueCount, List.find?_cons_of_pos _ (by simpa using he),
          uniqueCount, List.find?_cons_of_pos _ (by simpa using he)]
    · by_cases hek : e.1 = key
      · simp only [List.map_cons, if_pos hek]
        rw [uniqueCount, List.find?_cons_of_neg _ (by simpa using he),
            uniqueCount, List.find?_cons_of_neg _ (by simpa using he)]
        exact ih
      · simp only [List.map_cons, if_neg hek]
        rw [uniqueCount, List.find?_cons_of_neg _ (by simpa using he),
            uniqueCount, List.find?_cons_of_neg _ (by simpa using he)]
        exact ih

theorem uniqueCount_map_bump_mem (m : UTracks) (k : String × String)
    (h : m.any (fun e => e.1 = k) = true) :
    uniqueCount
        (m.map (fun e => if e.1 = k then (e.1, { e.2 with count := e.2.count + 1 }) else e)) k
      = uniqueCount m k + 1 := by
  induction m with
  | nil => simp at h
  | cons e es ih =>
    by_cases he : e.1 = k
    · simp only [List.map_cons, if_pos he]
      rw [uniqueCount, List.find?_cons_of_pos _ (by simpa using he),
          uniqueCount, List.find?_cons_of_pos _ (by simpa using he)]
    · simp only [List.any_cons, Bool.or_eq_true] at h
      rcases h with h | h
      · exact absurd (by simpa using h) he
      · simp only [List.map_cons, if_neg he]
        rw [uniqueCount, List.find?_cons_of_neg _ (by simpa using he),
            uniqueCount, List.find?_cons_of_neg _ (by simpa using he)]
        exact ih h

theorem uniqueCount_append_single_ne (m : UTracks) (k key : String × String) (ent : UEntry)
    (h : key ≠ k) : uniqueCount (m ++ [(key, ent)]) k = uniqueCount m k := by
  induction m with
  | nil =>
    show uniqueCount [(key, ent)] k = uniqueCount [] k
    rw [uniqueCount, List.find?_cons_of_neg _ (by simpa using h)]
    rfl
  | cons e es ih =>
    by_cases he : e.1 = k
    · rw [List.cons_append, uniqueCount, List.find?_cons_of_pos _ (by simpa using he),
          uniqueCount, List.find?_cons_of_pos _ (by simpa using he)]
    · rw [List.cons_append, uniqueCount, List.find?_cons_of_neg _ (by simpa using he),
          uniqueCount, List.find?_cons_of_neg _ (by simpa using he)]
      exact ih

theorem uniqueCount_append_single_eq (m : UTracks) (k : String × String) (ent : UEntry)
    (h : m.any (fun e => e.1 = k) = false) :
    uniqueCount (m ++ [(k, ent)]) k = ent.count := by
  induction m with
  | nil =>
    show uniqueCount [(k, ent)] k = ent.count
    rw [uniqueCount, List.find?_cons_of_pos _ (by simp)]
  | cons e es ih =>
    simp only [List.any_cons, Bool.or_eq_false_iff, decide_eq_false_iff_not] at h
    rw [List.cons_append, uniqueCount, List.find?_cons_of_neg _ (by simpa using h.1)]
    have hes := ih (by simpa [List.any_eq_false, decide_eq_false_iff_not] using h.2)
    rw [uniqueCount] at hes
    exact hes

theorem uniqueCount_addTrack (m : UTracks) (t : PyDict) (k : String × String) :
    uniqueCount (addTrackToUnique m t) k
      = uniqueCount m k + (if uKey t = k then 1 else 0) := by
  by_cases hk : uKey t = k
  · subst hk
    by_cases hmem : m.any (fun e => e.1 = uKey t) = true
    · simp only [addTrackToUnique, if_pos hmem, if_pos rfl]
      exact uniqueCount_map_bump_mem m (uKey t) hmem
    · have hmem' : m.any (fun e => e.1 = uKey t) = false := by
        simp only [Bool.not_eq_true] at hmem; exact hmem
      simp only [addTrackToUnique, hmem', Bool.false_eq_true, if_false, if_pos rfl]
      rw [uniqueCount_append_single_eq m (uKey t) _ hmem',
          uniqueCount_eq_zero_of_not_mem m (uKey t) hmem']
      simp
  · by_cases hmem : m.any (fun e => e.1 = uKey t) = true
    · simp only [addTrackToUnique, if_pos hmem, if_neg hk]
      rw [uniqueCount_map_bump_ne m (uKey t) k hk]
      simp
    · have hmem' : m.any (fun e => e.1 = uKey t) = false := by
        simp only [Bool.not_eq_true] at hmem; exact hmem
      simp only [addTrackToUnique, hmem', Bool.false_eq_true, if_false, if_neg hk]
      rw [uniqueCount_append_single_ne m k (uKey t) _ hk]
      simp

theorem uniqueCount_foldl_tracks (ts : List PyDict) (m : UTracks) (k : String × String) :
    uniqueCount (ts.foldl addTrackToUnique m) k
      = uniqueCount m k + ts.countP (fun t => decide (uKey t = k)) := by
  induction ts generalizing m with
  | nil => simp
  | cons t ts ih =>
    rw [List.foldl_cons, ih, uniqueCount_addTrack, List.countP_cons]
    simp only [decide_eq_true_eq]
    omega

theorem uniqueCount_foldl_files (files : List (List PyDict)) (m : UTracks)
    (k : String × String) :
    uniqueCount (files.foldl (fun m tracks => tracks.foldl addTrackToUnique m) m) k
      = uniqueCount m k + (files.flatten).countP (fun t => decide (uKey t = k)) := by
  induction files generalizing m with
  | nil => simp
  | cons ts fs ih =>
    rw [List.foldl_cons, ih, uniqueCount_foldl_tracks, List.flatten_cons, List.countP_append]
    omega

/-! ## Helper lemmas: shape of the records `gather_tracks` builds -/

theorem track_data_shape (tt : String) (t : MITrack) :
    (dictGet (track_data tt t) "forced" jnull = jstr "Yes"
        ∨ dictGet (track_data tt t) "forced" jnull = jstr "No") ∧
    (track_data tt t).find? (fun p => p.1 = "flag-forced") = none ∧
    (track_data tt t).find? (fun p => p.1 = "flag-default") = none ∧
    dictGet (track_data tt t) "flag-forced" (jbool false) = jbool false ∧
    dictGet (track_data tt t) "flag-default" (jbool false) = jbool false := by
  refine ⟨?_, ?_, ?_, ?_, ?_⟩
  · by_cases hf : (t.forced.getD "No") = "Yes" <;> simp [track_data, dictGet, hf]
  · simp [track_data]
  · simp [track_data]
  · simp [track_data, dictGet]
  · simp [track_data, dictGet]

theorem allRecords_gather_tracks_cons (t : MITrack) (ts : List MITrack) :
    allRecords (gather_tracks (t :: ts)) ⊆
      track_data (pyLower t.track_type) t :: allRecords (gather_tracks ts) := by
  intro r hr
  simp only [gather_tracks] at hr
  split at hr
  · exact List.mem_cons_of_mem _ hr
  · split at hr
    · simp only [allRecords, List.mem_append, List.mem_cons] at hr ⊢
      tauto
    · split at hr
      · simp only [allRecords, List.mem_append, List.mem_cons] at hr ⊢
        tauto
      · split at hr
        · simp only [allRecords, List.mem_append, List.mem_cons] at hr ⊢
          tauto
        · split at hr
          · simp only [allRecords, List.mem_append, List.mem_cons] at hr ⊢
            tauto
          · exact List.mem_cons_of_mem _ hr

theorem mem_allRecords_gather_tracks {r : PyDict} (ts : List MITrack)
    (h : r ∈ allRecords (gather_tracks ts)) : ∃ tt t, r = track_data tt t := by
  induction ts with
  | nil => simp [gather_tracks, allRecords] at h
  | cons t ts ih =>
    rcases List.mem_cons.mp (allRecords_gather_tracks_cons t ts h) with rfl | h2
    · exact ⟨_, _, rfl⟩
    · exact ih h2

/-! ## Claim theorems -/

/-- Claim C1, evaluated at the spec's own scenario: for the file with audio
tracks [{id 1, eng, "", forced No}, {id 2, jpn, "", forced Yes}] and
selected identity ("eng", ""), the code's flag-forced plan is the single
mutation setting track 1 true — not the claimed two mutations.  The clearing
mutation for track 2 is never issued because `bulk_modify_files` reads the
current flag as `track.get('flag-forced', False)`, a key `gather_tracks`
never writes (it stores the flag as `forced: "Yes"/"No"`), so the
"currently holds the flag" test is always false. -/
theorem bulk_modify_plan_failing_input_eval :
    bulk_modify_files_plan selEng "flag-forced" "audio" (gather_tracks showS01E02)
        = [⟨jnat 1, "flag-forced", true⟩] ∧
    bulk_modify_files_plan selEng "flag-forced" "audio" (gather_tracks showS01E02)
        ≠ [⟨jnat 1, "flag-forced", true⟩, ⟨jnat 2, "flag-forced", false⟩] := by
  decide

/-- Claim C2, evaluated at the scenario file: the combined
"default and forced" operation issues only the flag-forced reconciliation
(`bulk_set_default_and_forced_flag` passes `flag_name='flag-forced'` to
every `bulk_modify_files` call), whereas the spec's description — the
flag-default plan concatenated with the flag-forced plan — also contains
the flag-default mutation. -/
theorem default_and_forced_plan_failing_input_eval :
    bulk_set_default_and_forced_plan selEng "audio" (gather_tracks showS01E02)
        = [⟨jnat 1, "flag-forced", true⟩] ∧
    combined_plan_spec selEng "audio" (gather_tracks showS01E02)
        = [⟨jnat 1, "flag-default", true⟩, ⟨jnat 1, "flag-forced", true⟩] ∧
    bulk_set_default_and_forced_plan selEng "audio" (gather_tracks showS01E02)
        ≠ combined_plan_spec selEng "audio" (gather_tracks showS01E02) := by
  decide

/-- Claim C3, evaluated at a concrete filesystem: `create_backup_json`
writes `json/A_backup_<timestamp>.json`, but `restore_backup_json` looks
for `json/A.backup.json`, a name no backup ever gets; so after
backup, mutation of the live cache, and restore, the live cache still holds
the mutated contents, not the pre-mutation ones. -/
theorem backup_restore_roundtrip_failing_input_eval :
    create_backup_json fs0 "A" "20240101120000" "json/A_backup_20240101120000.json"
        = some (CacheFile.valid d0) ∧
    (fsSet (create_backup_json fs0 "A" "20240101120000") "json/A.json" (CacheFile.valid d1))
        "json/A.backup.json" = none ∧
    restore_backup_json
        (fsSet (create_backup_json fs0 "A" "20240101120000") "json/A.json"
          (CacheFile.valid d1)) "A" "json/A.json"
        = some (CacheFile.valid d1) ∧
    CacheFile.valid d1 ≠ CacheFile.valid d0 := by
  decide

/-- Claim C4 counterexample: persisting a cache whose "No Season" bucket
holds episode keys "2 Special.mkv" then "1 Pilot.mkv" writes those keys in
that order, unsorted, even though the first number of the first key (2)
exceeds that of the second (1): `save_json` sorts only the top-level season
keys, never the episode keys inside a season. -/
theorem save_json_unsorted_episode_keys_cex :
    (save_json (fun _ => none) "A" cdata) (cachePath "A")
        = some (CacheFile.valid
            [("No Season", [("2 Special.mkv", "x"), ("1 Pilot.mkv", "y")]),
             ("Season 1", [("s01e01", "e1")])]) ∧
    firstNum "2 Special.mkv" = 2 ∧ firstNum "1 Pilot.mkv" = 1 := by
  decide

/-- Claim C4 (amended): the document `save_json` writes is the input cache
with its top-level (season) keys stably sorted numerically by the first
number found in each key (0 when the key has no number); the entries
themselves — in particular the episode lists inside each season — are
carried over unchanged, in their existing order. -/
theorem save_json_sorts_top_level_keys :
    ∀ (fs : FS) (show_name : String) (data : ShowData),
      (save_json fs show_name data) (cachePath show_name)
          = some (CacheFile.valid (pySortedByNum data)) ∧
      List.Pairwise (fun a b => firstNum a.1 ≤ firstNum b.1) (pySortedByNum data) ∧
      (pySortedByNum data).Perm data := by
  intro fs show_name data
  refine ⟨?_, pySortedByNum_pairwise data, pySortedByNum_perm data⟩
  simp [save_json, fsSet]

/-- Claim C5, evaluated at the scenario file: the flag-forced plan is
nonempty, and recomputing the plan after fully applying it yields the same
nonempty plan again, not the empty plan — the set-true mutation for the
selected track is re-issued forever, because the current-flag read
(`track.get('flag-forced', False)`) never reflects the applied state. -/
theorem replan_after_apply_failing_input_eval :
    bulk_modify_files_plan selEng "flag-forced" "audio" (gather_tracks showS01E02) ≠ [] ∧
    bulk_modify_files_plan selEng "flag-forced" "audio"
        (gather_tracks (applyPlan showS01E02
          (bulk_modify_files_plan selEng "flag-forced" "audio" (gather_tracks showS01E02))))
      = bulk_modify_files_plan selEng "flag-forced" "audio" (gather_tracks showS01E02) := by
  decide

/-- Claim C6: executing a plan entry with `dry_run = true` performs no
external mkvpropedit invocation and no `update_media_info` call — the media
files and the JSON cache are untouched — while the would-be command is
still reported for the entry (whenever the entry has a track id, which
every planned entry does). -/
theorem dry_run_performs_no_mutation :
    ∀ (file_path : String) (track_id : JVal) (flag_name : String)
      (flag_value use_sudo : Bool),
      (modify_mkv_track file_path track_id flag_name flag_value true use_sudo).externalCalls
          = [] ∧
      (modify_mkv_track file_path track_id flag_name flag_value true use_sudo).cacheUpdates
          = [] ∧
      (track_id ≠ jnull →
        (modify_mkv_track file_path track_id flag_name flag_value true use_sudo).dryRunReports
          = [String.intercalate " "
              (mkvpropeditCommand file_path track_id flag_name flag_value use_sudo)]) := by
  intro file_path track_id flag_name flag_value use_sudo
  by_cases h : track_id = jnull <;> simp [modify_mkv_track, h]

/-- Witness for claim C6 at a concrete dry-run entry. -/
theorem dry_run_performs_no_mutation_witness :
    (modify_mkv_track "/media/Show/ep.mkv" (jnat 1) "flag-forced" true true false).externalCalls
        = [] ∧
    (modify_mkv_track "/media/Show/ep.mkv" (jnat 1) "flag-forced" true true false).cacheUpdates
        = [] ∧
    (modify_mkv_track "/media/Show/ep.mkv" (jnat 1) "flag-forced" true true false).dryRunReports
        = [String.intercalate " "
            (mkvpropeditCommand "/media/Show/ep.mkv" (jnat 1) "flag-forced" true false)] :=
  ⟨(dry_run_performs_no_mutation "/media/Show/ep.mkv" (jnat 1) "flag-forced" true false).1,
   (dry_run_performs_no_mutation "/media/Show/ep.mkv" (jnat 1) "flag-forced" true false).2.1,
   (dry_run_performs_no_mutation "/media/Show/ep.mkv" (jnat 1) "flag-forced" true false).2.2
     (by decide)⟩

/-- Claim C7 counterexample: a single file containing two audio tracks with
the same normalized identity ("eng", "") yields an aggregate count of 2,
while the number of files containing at least one matching track is 1 — the
loop increments the count once per matching track, not once per file. -/
theorem unique_track_count_cex :
    uniqueCount (collect_unique_tracks [(gather_tracks [engT, engDup]).audio]) ("eng", "") = 2 ∧
    filesContainingIdentity [(gather_tracks [engT, engDup]).audio] ("eng", "") = 1 := by
  decide

/-- Claim C7 (amended): for every collection of per-file track lists and
every normalized identity, the aggregate count recorded by the grouping is
the total number of tracks across all files whose normalized identity
matches — equivalently, the number of (file, track) pairs, not the number
of files containing at least one match. -/
theorem unique_track_count_eq_total_matching_tracks :
    ∀ (files : List (List PyDict)) (k : String × String),
      uniqueCount (collect_unique_tracks files) k
        = (files.flatten).countP (fun t => decide (uKey t = k)) := by
  intro files k
  rw [collect_unique_tracks, uniqueCount_foldl_files]
  simp [uniqueCount]

/-- Claim C8 counterexample: when the show's cache file exists but does not
parse, `load_json` raises (the `json.load` exception propagates — there is
no handler), instead of returning the empty cache the claim describes. -/
theorem load_json_corrupt_cex :
    load_json corruptFS "A" = Except.error () ∧
    load_json corruptFS "A" ≠ Except.ok ([] : ShowData) := by
  refine ⟨rfl, fun h => ?_⟩
  rw [show load_json corruptFS "A" = Except.error () from rfl] at h
  exact Except.noConfusion h

/-- Claim C8 (amended): `load_json` returns the empty cache when no cache
file exists for the show (not an error); but when the cache file exists and
is unreadable or corrupt, the read error propagates to the caller rather
than being treated as an empty cache. -/
theorem load_json_missing_empty_corrupt_raises :
    ∀ (fs : FS) (show_name : String),
      (fs (cachePath show_name) = none → load_json fs show_name = Except.ok []) ∧
      (fs (cachePath show_name) = some CacheFile.corrupt →
        load_json fs show_name = Except.error ()) := by
  intro fs show_name
  constructor <;> intro h <;> simp [load_json, h]

/-- Witness for claim C8 on concrete filesystems with a missing and a
corrupt cache file. -/
theorem load_json_missing_empty_corrupt_raises_witness :
    load_json (fun _ => none) "A" = Except.ok [] ∧
    load_json corruptFS "A" = Except.error () :=
  ⟨(load_json_missing_empty_corrupt_raises (fun _ => none) "A").1 rfl,
   (load_json_missing_empty_corrupt_raises corruptFS "A").2 (by decide)⟩

/-- Claim C9: a track whose track id is absent (`None`) is never mutated:
the bulk planning loop skips it (no mutation entry is produced for it), and
`modify_mkv_track` called with a `None` track id returns without invoking
the external tool, updating the cache, or reporting anything — so such a
track can neither become newly flagged nor be auto-cleared. -/
theorem missing_track_id_never_mutated :
    ∀ (sel : SelInfo) (flag_name : String) (track : PyDict) (file_path : String)
      (flag_value dry_run use_sudo : Bool),
      dictGet track "track_id" jnull = jnull →
      planTrack sel flag_name track = none ∧
      modify_mkv_track file_path jnull flag_name flag_value dry_run use_sudo = {} := by
  intro sel flag_name track file_path flag_value dry_run use_sudo h
  constructor
  · simp [planTrack, h]
  · simp [modify_mkv_track]

/-- Witness for claim C9 at a concrete record lacking a track id. -/
theorem missing_track_id_never_mutated_witness :
    planTrack selEng "flag-forced" (track_data "audio" noIdTrack) = none ∧
    modify_mkv_track "/media/Show/ep.mkv" jnull "flag-forced" true false false = {} :=
  missing_track_id_never_mutated selEng "flag-forced" (track_data "audio" noIdTrack)
    "/media/Show/ep.mkv" true false false (by decide)

/-- Claim C10: every record in a snapshot produced by `gather_tracks`
stores the forced attribute under the key "forced" as the string "Yes" or
"No" and contains no key named "flag-forced" or "flag-default"; hence
`track.get('flag-forced', False)` and `track.get('flag-default', False)`
on such a record return `False` regardless of the track's actual flag
state. -/
theorem gather_tracks_record_shape :
    ∀ (ts : List MITrack) (r : PyDict), r ∈ allRecords (gather_tracks ts) →
      (dictGet r "forced" jnull = jstr "Yes" ∨ dictGet r "forced" jnull = jstr "No") ∧
      r.find? (fun p => p.1 = "flag-forced") = none ∧
      r.find? (fun p => p.1 = "flag-default") = none ∧
      dictGet r "flag-forced" (jbool false) = jbool false ∧
      dictGet r "flag-default" (jbool false) = jbool false := by
  intro ts r h
  obtain ⟨tt, t, rfl⟩ := mem_allRecords_gather_tracks ts h
  exact track_data_shape tt t

/-- Witness for claim C10 at a concrete record of the scenario snapshot. -/
theorem gather_tracks_record_shape_witness :
    (dictGet (track_data "audio" engT) "forced" jnull = jstr "Yes"
        ∨ dictGet (track_data "audio" engT) "forced" jnull = jstr "No") ∧
    (track_data "audio" engT).find? (fun p => p.1 = "flag-forced") = none ∧
    (track_data "audio" engT).find? (fun p => p.1 = "flag-default") = none ∧
    dictGet (track_data "audio" engT) "flag-forced" (jbool false) = jbool false ∧
    dictGet (track_data "audio" engT) "flag-default" (jbool false) = jbool false :=
  gather_tracks_record_shape showS01E02 (track_data "audio" engT) (by decide)

end MkvBulk
